import Mathlib

set_option maxHeartbeats 1000000

/-!
Verification of the FileAlchemy client-side conversion orchestration.

Shallow embedding of:
  - src/services/conversionApi.js  (ConversionApi, MockConversionApi,
    SmartConversionService)
  - src/hooks/useConversion.js     (mockConvertFiles, generatePreviewUrls,
    the convertFiles / setFiles / resetConversion callbacks)
  - the AppContext reducer (initialState, ActionTypes, appReducer)

Browser effects are modelled as explicit inputs: each fetch outcome is a
FetchOutcome value supplied by the environment, Math.random is a stream
of rationals, URL.createObjectURL is a fresh-handle allocator (numeric
handle ids standing for object URLs), and notification ids are supplied
by the environment.  Math.round on a nonnegative number is
floor (x + 1/2).
-/

namespace FileAlchemy

/-- JavaScript Math.round for the nonnegative values that occur here. -/
def jsRound (q : ℚ) : ℤ := ⌊q + 1/2⌋

/-- A browser File object: name, size in bytes, MIME type. -/
structure JSFile where
  name : String
  size : ℚ
  type : String
deriving Repr, DecidableEq

/-- Job status strings returned by the backend status endpoint. -/
inductive JobStatus where
  | completed
  | failed
  | processing
  | pending
  | other (s : String)
deriving Repr, DecidableEq

/-- One per-file entry of the results array in a completed status payload. -/
structure ServerItem where
  original_filename : String
  converted_filename : String
  download_url : Option String
  size : ℤ
  success : Bool
  error : Option String
deriving Repr, DecidableEq

/-- Body of GET /api/status responses. -/
structure StatusData where
  status : JobStatus
  progress : ℤ
  error_message : Option String
  results : List ServerItem
deriving Repr, DecidableEq

/-- The per-file result shape consumed by the UI.  Option models JS
null/undefined: the mock engines never set the error field at all, which
is modelled as none. -/
structure ConversionResult where
  originalFile : Option JSFile
  convertedFileName : Option String
  downloadUrl : Option String
  size : ℤ
  success : Bool
  error : Option String
deriving Repr, DecidableEq

/-- The uniform result shape of every convertFiles entry point. -/
structure BatchResult where
  success : Bool
  results : List ConversionResult
  message : String
deriving Repr, DecidableEq

/-- ConversionApiError values, one constructor per throw site in
conversionApi.js, so that connectivity-class errors and a server-side
job failure are distinguishable in specifications. -/
inductive ApiError where
  | healthNotOk (status : ℤ)
  | healthNetwork
  | uploadRejected (msg : String) (status : ℤ)
  | uploadNetwork
  | statusNotFound
  | statusHttp (status : ℤ)
  | statusNetwork
  | jobFailed (msg : String)
  | unknownStatus (s : String)
deriving Repr, DecidableEq

/-- True exactly for the error produced when polling sees a terminal
failed status. -/
def ApiError.isJobFailure : ApiError → Bool
  | .jobFailed _ => true
  | _ => false

/-- Outcome of one fetch, supplied by the environment: a 2xx body, a
non-2xx status with an optional JSON error body, or a network failure. -/
inductive FetchOutcome (α : Type) where
  | ok (val : α)
  | httpError (status : ℤ) (errBody : Option String)
  | network
deriving Repr, DecidableEq

/-- API_BASE_URL with the trailing /api removed, used to absolutize
download paths. -/
def apiOrigin : String := "http://localhost:5000"

/-- ConversionApi.checkHealth: ok on 2xx, otherwise a connectivity-class
ConversionApiError. -/
def ConversionApi.checkHealth : FetchOutcome Unit → Except ApiError Unit
  | .ok _ => .ok ()
  | .httpError s _ => .error (.healthNotOk s)
  | .network => .error .healthNetwork

/-- ConversionApi.startConversion: uploads the batch and returns the job
id, or throws the server-provided error message on non-2xx. -/
def ConversionApi.startConversion : FetchOutcome String → Except ApiError String
  | .ok jobId => .ok jobId
  | .httpError s body => .error (.uploadRejected (body.getD "Upload failed") s)
  | .network => .error .uploadNetwork

/-- ConversionApi.getConversionStatus: one status fetch. -/
def ConversionApi.getConversionStatus : FetchOutcome StatusData → Except ApiError StatusData
  | .ok d => .ok d
  | .httpError s _ => if s = 404 then .error .statusNotFound else .error (.statusHttp s)
  | .network => .error .statusNetwork

/-- ConversionApi.pollConversionStatus over a finite trace of status
fetch outcomes.  Returns the (progress, status) pairs passed to
onProgress, and the final resolution: none when the trace ran out while
the job was still pending or processing (the JS promise would simply
keep polling), some (ok d) on a completed status, some (error e) when a
fetch threw, the status was failed, or the status was unknown. -/
def ConversionApi.pollConversionStatus :
    List (FetchOutcome StatusData) → List (ℤ × JobStatus) × Option (Except ApiError StatusData)
  | [] => ([], none)
  | r :: rest =>
    match ConversionApi.getConversionStatus r with
    | .error e => ([], some (.error e))
    | .ok d =>
      match d.status with
      | .completed => ([(d.progress, d.status)], some (.ok d))
      | .failed =>
          ([(d.progress, d.status)],
           some (.error (.jobFailed (d.error_message.getD "Conversion failed"))))
      | .processing =>
          let tail := ConversionApi.pollConversionStatus rest
          ((d.progress, d.status) :: tail.1, tail.2)
      | .pending =>
          let tail := ConversionApi.pollConversionStatus rest
          ((d.progress, d.status) :: tail.1, tail.2)
      | .other s => ([(d.progress, d.status)], some (.error (.unknownStatus s)))

/-- Environment of one backend conversion: the upload outcome and the
trace of status fetch outcomes. -/
structure BackendEnv where
  upload : FetchOutcome String
  polls : List (FetchOutcome StatusData)
deriving Repr, DecidableEq

/-- The per-item mapping in ConversionApi.convertFiles: match the
original file by name, absolutize the download url (null stays null). -/
def ConversionApi.processItem (files : List JSFile) (item : ServerItem) : ConversionResult :=
  { originalFile := files.find? (fun f => f.name = item.original_filename)
    convertedFileName := some item.converted_filename
    downloadUrl := match item.download_url with
      | some u => some (apiOrigin ++ u)
      | none => none
    size := item.size
    success := item.success
    error := item.error }

/-- ConversionApi.convertFiles: start the job, poll to resolution, map
the server items to frontend results.  The top-level success field of
the returned object is the literal true. -/
def ConversionApi.convertFiles (files : List JSFile) (env : BackendEnv) :
    List (ℤ × JobStatus) × Option (Except ApiError BatchResult) :=
  match ConversionApi.startConversion env.upload with
  | .error e => ([], some (.error e))
  | .ok _jobId =>
    let polled := ConversionApi.pollConversionStatus env.polls
    match polled.2 with
    | none => (polled.1, none)
    | some (.error e) => (polled.1, some (.error e))
    | some (.ok statusData) =>
      let processedResults := statusData.results.map (ConversionApi.processItem files)
      (polled.1,
       some (.ok
        { success := true
          results := processedResults
          message := "Successfully converted "
            ++ toString (processedResults.filter (fun r => r.success)).length
            ++ " of " ++ toString processedResults.length ++ " files" }))

/-- Whether the character list satisfies the suffix part of the JS
regex used for extension replacement: nonempty run of characters that
are neither a dot nor a slash. -/
def extSuffixOk (cs : List Char) : Bool :=
  !cs.isEmpty && cs.all (fun d => !(d == '.' || d == '/'))

/-- Start index of the leftmost (hence, for this pattern, effectively
the last-dot) match of the anchored extension regex. -/
def extMatchStart : List Char → Option ℕ
  | [] => none
  | c :: rest =>
    if c == '.' && extSuffixOk rest then some 0
    else (extMatchStart rest).map (· + 1)

/-- file.name.replace of the trailing dot-extension by a dot followed by
ext; the name is unchanged when the regex does not match. -/
def replaceExtension (name ext : String) : String :=
  match extMatchStart name.toList with
  | some i => String.mk (name.toList.take i) ++ "." ++ ext
  | none => name

/-- MockConversionApi.convertFiles: per file, eleven simulated progress
emissions (0, 10, ..., 100 scaled into the batch range) and a result
with a renamed file, a fresh object URL, a randomly varied size and a
95 percent success draw.  rand is the Math.random stream (file i draws
rand (2i) for size, then rand (2i+1) for success), mkUrl is
URL.createObjectURL for file i.  No error field is ever set. -/
def MockConversionApi.convertFiles (files : List JSFile) (targetFormat : String)
    (rand : ℕ → ℚ) (mkUrl : ℕ → String) :
    List (ℤ × JobStatus) × BatchResult :=
  let totalFiles := files.length
  let results := files.enum.map (fun p =>
    { originalFile := some p.2
      convertedFileName := some (replaceExtension p.2.name targetFormat.toLower)
      downloadUrl := some (mkUrl p.1)
      size := jsRound (p.2.size * (7/10 + rand (2 * p.1) * (3/5)))
      success := rand (2 * p.1 + 1) > 1/20
      error := none : ConversionResult })
  let progress := (List.range totalFiles).flatMap (fun (i : ℕ) =>
    (List.range 11).map (fun (k : ℕ) =>
      (jsRound (((i : ℚ) * 100 + 10 * (k : ℚ)) / (totalFiles : ℚ)), JobStatus.processing)))
  (progress,
   { success := true
     results := results
     message := "Successfully converted "
       ++ toString (results.filter (fun r => r.success)).length
       ++ " of " ++ toString totalFiles ++ " files" })

/-- Which engine produced the result of one SmartConversionService
call. -/
inductive Engine where
  | backend
  | mockFallback
  | mockDirect
deriving Repr, DecidableEq

/-- Environment of one SmartConversionService.convertFiles call. -/
structure SmartEnv where
  health : FetchOutcome Unit
  backend : BackendEnv
  rand : ℕ → ℚ
  mkUrl : ℕ → String

/-- SmartConversionService.checkBackendAvailability: answer from the
memo when set, otherwise probe health once and memoize the outcome.
Returns the availability answer and the new memo. -/
def SmartConversionService.checkBackendAvailability (memo : Option Bool)
    (health : FetchOutcome Unit) : Bool × Option Bool :=
  match memo with
  | some b => (b, some b)
  | none =>
    match ConversionApi.checkHealth health with
    | .ok _ => (true, some true)
    | .error _ => (false, some false)

/-- SmartConversionService.convertFiles: backend when available; any
error thrown by the backend flow is caught, flips the memo to
unavailable and re-runs the same request on the mock engine.  Returns
none when the backend flow would never resolve (poll trace exhausted),
otherwise the forwarded progress, the batch result, the engine that
produced it and the new memo. -/
def SmartConversionService.convertFiles (memo : Option Bool) (files : List JSFile)
    (_sourceFormat targetFormat : String) (env : SmartEnv) :
    Option (List (ℤ × JobStatus) × BatchResult × Engine × Option Bool) :=
  let avail := SmartConversionService.checkBackendAvailability memo env.health
  if avail.1 then
    let b := ConversionApi.convertFiles files env.backend
    match b.2 with
    | none => none
    | some (.ok r) => some (b.1, r, .backend, avail.2)
    | some (.error _e) =>
      let m := MockConversionApi.convertFiles files targetFormat env.rand env.mkUrl
      some (b.1 ++ m.1, m.2, .mockFallback, some false)
  else
    let m := MockConversionApi.convertFiles files targetFormat env.rand env.mkUrl
    some (m.1, m.2, .mockDirect, avail.2)

/-- Notification payload as dispatched by the hook. -/
structure NotificationPayload where
  type : String
  message : String
  title : String
deriving Repr, DecidableEq

/-- A stored notification: the reducer adds the environment-generated id
to the payload. -/
structure Notification where
  id : ℚ
  type : String
  message : String
  title : String
deriving Repr, DecidableEq

/-- The actions of the AppContext reducer (ActionTypes), with their
payloads.  ADD_NOTIFICATION carries the id generated at dispatch time
(Date.now() + Math.random()), supplied by the environment. -/
inductive Action where
  | toggleDarkMode
  | setConversion (category sourceFormat targetFormat : Option String)
  | setFiles (files : List JSFile) (previews : List (Option ℕ))
  | addFiles (files : List JSFile) (previews : List (Option ℕ))
  | removeFile (index : ℕ)
  | clearFiles
  | startConversion
  | updateProgress (progress : ℤ)
  | completeConversion (results : List ConversionResult)
  | resetConversion
  | addNotification (id : ℚ) (payload : NotificationPayload)
  | removeNotification (id : ℚ)
  | clearNotifications
deriving Repr, DecidableEq

/-- The AppContext state.  Preview URLs are modelled as numeric handle
ids (some id) or null (none). -/
structure AppState where
  darkMode : Bool
  selectedCategory : Option String
  sourceFormat : Option String
  targetFormat : Option String
  selectedFiles : List JSFile
  previewUrls : List (Option ℕ)
  isConverting : Bool
  progress : ℤ
  conversionResults : List ConversionResult
  notifications : List Notification
deriving Repr, DecidableEq

/-- The context initial state; the dark-mode flag is environment
derived (localStorage / media query) and fixed to false here. -/
def initialState : AppState :=
  { darkMode := false
    selectedCategory := none
    sourceFormat := none
    targetFormat := none
    selectedFiles := []
    previewUrls := []
    isConverting := false
    progress := 0
    conversionResults := []
    notifications := [] }

/-- The appReducer, case by case from the source.  START_CONVERSION has
no guard on isConverting; UPDATE_PROGRESS and COMPLETE_CONVERSION are
unconditional; COMPLETE_CONVERSION always records progress 100. -/
def appReducer (state : AppState) (action : Action) : AppState :=
  match action with
  | .toggleDarkMode => { state with darkMode := !state.darkMode }
  | .setConversion category sourceFormat targetFormat =>
      { state with
        selectedCategory := category
        sourceFormat := sourceFormat
        targetFormat := targetFormat }
  | .setFiles files previews =>
      { state with selectedFiles := files, previewUrls := previews }
  | .addFiles files previews =>
      { state with
        selectedFiles := state.selectedFiles ++ files
        previewUrls := state.previewUrls ++ previews }
  | .removeFile index =>
      { state with
        selectedFiles := (state.selectedFiles.enum.filter (fun p => p.1 ≠ index)).map (fun p => p.2)
        previewUrls := (state.previewUrls.enum.filter (fun p => p.1 ≠ index)).map (fun p => p.2) }
  | .clearFiles =>
      { state with selectedFiles := [], previewUrls := [], conversionResults := [] }
  | .startConversion =>
      { state with isConverting := true, progress := 0, conversionResults := [] }
  | .updateProgress progress => { state with progress := progress }
  | .completeConversion results =>
      { state with isConverting := false, progress := 100, conversionResults := results }
  | .resetConversion =>
      { state with
        selectedCategory := none
        sourceFormat := none
        targetFormat := none
        selectedFiles := []
        previewUrls := []
        isConverting := false
        progress := 0
        conversionResults := [] }
  | .addNotification id payload =>
      { state with
        notifications := state.notifications ++
          [{ id := id, type := payload.type, message := payload.message, title := payload.title }] }
  | .removeNotification id =>
      { state with notifications := state.notifications.filter (fun n => n.id ≠ id) }
  | .clearNotifications => { state with notifications := [] }

/-- The hook-local mock conversion of useConversion.js: twenty progress
steps per file, rounded into the overall 0 to 100 range, and a result
per file shaped exactly like the service mock but with a synthetic
blob URL.  rand and mkUrl play the same roles as in
MockConversionApi.convertFiles.  Returns the progress values passed to
onProgress and the batch result. -/
def useConversion.mockConvertFiles (files : List JSFile) (targetFormat : String)
    (rand : ℕ → ℚ) (mkUrl : ℕ → String) : List ℤ × BatchResult :=
  let totalFiles := files.length
  let progress := (List.range totalFiles).flatMap (fun (i : ℕ) =>
    (List.range 20).map (fun (step : ℕ) =>
      jsRound (((i : ℚ) * 100 + (((step : ℚ) + 1) / 20) * 100) / (totalFiles : ℚ))))
  let results := files.enum.map (fun p =>
    { originalFile := some p.2
      convertedFileName := some (replaceExtension p.2.name targetFormat.toLower)
      downloadUrl := some (mkUrl p.1)
      size := jsRound (p.2.size * (7/10 + rand (2 * p.1) * (3/5)))
      success := rand (2 * p.1 + 1) > 1/20
      error := none : ConversionResult })
  (progress,
   { success := true
     results := results
     message := "Successfully converted "
       ++ toString (results.filter (fun r => r.success)).length
       ++ " of " ++ toString totalFiles ++ " files" })

/-- Environment of one hook convertFiles call: the Math.random stream,
the object-URL allocator, and the notification ids generated at the
two dispatch sites. -/
structure HookEnv where
  rand : ℕ → ℚ
  mkUrl : ℕ → String
  notifId : ℕ → ℚ

/-- The convertFiles callback of useConversion: validate, dispatch
START_CONVERSION and the info notification, run the mock conversion
forwarding every progress value as UPDATE_PROGRESS, then either
COMPLETE_CONVERSION with the results plus a success notification, or
(catch path) COMPLETE_CONVERSION with empty results plus an error
notification.  Returns the dispatched actions in order and the final
value of the hook-local error state. -/
def useConversion.convertFiles (state : AppState) (env : HookEnv) :
    List Action × Option String :=
  if state.selectedFiles.isEmpty || state.sourceFormat.isNone || state.targetFormat.isNone then
    ([], some "Please select files and conversion formats")
  else
    let startPayload : NotificationPayload :=
      { type := "info"
        message := "Starting conversion of " ++ toString state.selectedFiles.length
          ++ " file(s) from " ++ state.sourceFormat.getD ""
          ++ " to " ++ state.targetFormat.getD ""
        title := "Conversion Started" }
    let run := useConversion.mockConvertFiles state.selectedFiles
      (state.targetFormat.getD "") env.rand env.mkUrl
    let header := [Action.startConversion, Action.addNotification (env.notifId 0) startPayload]
    let progressActions := run.1.map Action.updateProgress
    if run.2.success then
      (header ++ progressActions ++
        [Action.completeConversion run.2.results,
         Action.addNotification (env.notifId 1)
           { type := "success", message := run.2.message, title := "Conversion Complete!" }],
       none)
    else
      let errMessage := if run.2.message = "" then "Conversion failed" else run.2.message
      (header ++ progressActions ++
        [Action.completeConversion [],
         Action.addNotification (env.notifId 1)
           { type := "error", message := errMessage, title := "Conversion Failed" }],
       some errMessage)

/-- String.startsWith, modelled on the character list (the builtin
byte-level test does not reduce in the kernel). -/
def strStartsWith (s pre : String) : Bool :=
  s.toList.take pre.toList.length == pre.toList

/-- generatePreviewUrls: a preview handle (object URL) is created for
every image file, null for every other file.  Handles are allocated
from the counter n; returns the preview list and the new counter. -/
def generatePreviewUrls : List JSFile → ℕ → List (Option ℕ) × ℕ
  | [], n => ([], n)
  | f :: rest, n =>
    if strStartsWith f.type "image/" then
      let tail := generatePreviewUrls rest (n + 1)
      (some n :: tail.1, tail.2)
    else
      let tail := generatePreviewUrls rest n
      ((none : Option ℕ) :: tail.1, tail.2)

/-- A session: the app state plus the object-URL bookkeeping.  nextId
counts every preview handle ever created; released lists, in order,
every handle passed to URL.revokeObjectURL. -/
structure Session where
  state : AppState
  nextId : ℕ
  released : List ℕ
deriving Repr, DecidableEq

/-- The setFiles callback: materialize previews for the new batch and
dispatch SET_FILES.  The previews of the replaced batch are not
revoked. -/
def useConversion.setFiles (s : Session) (files : List JSFile) : Session :=
  let gen := generatePreviewUrls files s.nextId
  { state := appReducer s.state (.setFiles files gen.1)
    nextId := gen.2
    released := s.released }

/-- The addFiles callback: materialize previews for the added files and
dispatch ADD_FILES. -/
def useConversion.addFiles (s : Session) (files : List JSFile) : Session :=
  let gen := generatePreviewUrls files s.nextId
  { state := appReducer s.state (.addFiles files gen.1)
    nextId := gen.2
    released := s.released }

/-- The removeFile callback: revoke the preview at the index when it is
a handle, then dispatch REMOVE_FILE. -/
def useConversion.removeFile (s : Session) (index : ℕ) : Session :=
  { state := appReducer s.state (.removeFile index)
    nextId := s.nextId
    released := s.released ++ (s.state.previewUrls.getD index none).toList }

/-- The clearFiles callback: revoke every handle currently held in
previewUrls, then dispatch CLEAR_FILES. -/
def useConversion.clearFiles (s : Session) : Session :=
  { state := appReducer s.state .clearFiles
    nextId := s.nextId
    released := s.released ++ s.state.previewUrls.filterMap id }

/-- The resetConversion callback: revoke every handle currently held in
previewUrls, then dispatch RESET_CONVERSION. -/
def useConversion.resetConversion (s : Session) : Session :=
  { state := appReducer s.state .resetConversion
    nextId := s.nextId
    released := s.released ++ s.state.previewUrls.filterMap id }

/-- Projection of the progress payload of an UPDATE_PROGRESS action. -/
def progressOf : Action → Option ℤ
  | .updateProgress p => some p
  | _ => none

end FileAlchemy

namespace FileAlchemy

/-! Concrete inputs used by counterexamples and witnesses. -/

/-- A plain text file used as concrete input. -/
def file0 : JSFile := { name := "a.txt", size := 1000, type := "text/plain" }

/-- An image file (its type gets a preview handle). -/
def imgA : JSFile := { name := "a.png", size := 10, type := "image/png" }

/-- A second image file. -/
def imgB : JSFile := { name := "b.png", size := 20, type := "image/png" }

/-- A hook environment with a fixed random stream (always 1, so every
mock success draw succeeds), a fixed object URL and notification id 0. -/
def henv0 : HookEnv := { rand := fun _ => 1, mkUrl := fun _ => "blob:x", notifId := fun _ => 0 }

/-- A stale result used to replay a late completion callback. -/
def res0 : ConversionResult :=
  { originalFile := some file0
    convertedFileName := some "a.png"
    downloadUrl := some "blob:x"
    size := 700
    success := false
    error := none }

/-- A state in which a conversion is already running. -/
def stC2 : AppState :=
  { initialState with
    isConverting := true
    progress := 50
    selectedFiles := [file0]
    sourceFormat := some "TXT"
    targetFormat := some "PNG" }

/-- A backend environment whose poll trace reports a terminal failed
status: the backend flow ends in a job failure, not a connectivity
error. -/
def benvFailed : BackendEnv :=
  { upload := .ok "job-1"
    polls := [.ok { status := .failed, progress := 10,
                    error_message := some "bad input", results := [] }] }

/-- Smart-service environment around benvFailed with a healthy probe. -/
def senvFailed : SmartEnv :=
  { health := .ok (), backend := benvFailed, rand := fun _ => 1, mkUrl := fun _ => "blob:x" }

/-- A backend environment whose upload fails with a network error. -/
def benvNet : BackendEnv := { upload := .network, polls := [] }

/-- Smart-service environment around benvNet with a healthy probe. -/
def senvNet : SmartEnv :=
  { health := .ok (), backend := benvNet, rand := fun _ => 1, mkUrl := fun _ => "blob:x" }

/-- A backend environment that completes with one successful item. -/
def benvDone : BackendEnv :=
  { upload := .ok "job-1"
    polls := [.ok { status := .completed, progress := 100, error_message := none,
                    results := [{ original_filename := "a.txt", converted_filename := "a.png",
                                  download_url := some "/download/a.png", size := 900,
                                  success := true, error := none }] }] }

/-- The batch result of the completed backend run above. -/
def batchDone : BatchResult :=
  match (ConversionApi.convertFiles [file0] benvDone).2 with
  | some (Except.ok r) => r
  | _ => { success := false, results := [], message := "" }

/-- A placeholder result, used only as the default of headD below. -/
def dummyResult : ConversionResult :=
  { originalFile := none, convertedFileName := none, downloadUrl := none,
    size := 0, success := true, error := some "dummy" }

/-- The single result of a mock batch over file0 whose success draw
fails (random stream constantly 0). -/
def mockFailResult : ConversionResult :=
  (MockConversionApi.convertFiles [file0] "PNG" (fun _ => 0)
    (fun _ => "blob:x")).2.results.headD dummyResult

/-- The single result of a mock batch over file0 whose success draw
succeeds (random stream constantly 1). -/
def mockOkResult : ConversionResult :=
  (MockConversionApi.convertFiles [file0] "PNG" (fun _ => 1)
    (fun _ => "blob:x")).2.results.headD dummyResult

/-- The info payload dispatched when converting stC2. -/
def startPayloadC2 : NotificationPayload :=
  { type := "info"
    message := "Starting conversion of " ++ toString (1 : ℕ)
      ++ " file(s) from " ++ "TXT" ++ " to " ++ "PNG"
    title := "Conversion Started" }

/-! Helper lemmas. -/

lemma jsRound_mono {a b : ℚ} (h : a ≤ b) : jsRound a ≤ jsRound b :=
  Int.floor_le_floor (by linarith)

lemma filterMap_progressOf_map (l : List ℤ) :
    (l.map Action.updateProgress).filterMap progressOf = l := by
  induction l with
  | nil => rfl
  | cons x xs ih => simp [progressOf, ih]

lemma chain_le_map_range (g : ℕ → ℤ) (hg : ∀ k, g k ≤ g (k + 1)) (m : ℕ) :
    ((List.range m).map g).Chain' (· ≤ ·) := by
  cases m with
  | zero => simp
  | succ m =>
    rw [List.chain'_map, List.chain'_range_succ]
    intro i _
    exact hg i

lemma hookProgress_flatten (N : ℚ) (n : ℕ) :
    (List.range n).flatMap (fun (i : ℕ) => (List.range 20).map (fun (step : ℕ) =>
        jsRound (((i : ℚ) * 100 + (((step : ℚ) + 1) / 20) * 100) / N))) =
    (List.range (20 * n)).map (fun (k : ℕ) => jsRound ((5 * ((k : ℚ) + 1)) / N)) := by
  induction n with
  | zero => simp
  | succ m ih =>
    rw [List.range_succ, List.flatMap_append, ih,
        show 20 * (m + 1) = 20 * m + 20 by ring, List.range_add, List.map_append]
    congr 1
    simp only [List.flatMap_cons, List.flatMap_nil, List.append_nil, List.map_map]
    apply List.map_congr_left
    intro s _
    show jsRound _ = jsRound _
    congr 1
    push_cast
    ring

lemma hook_progress_chain (n : ℕ) :
    List.Chain' (· ≤ ·)
      ((List.range (20 * n)).map (fun (k : ℕ) => jsRound ((5 * ((k : ℚ) + 1)) / (n : ℚ)))) := by
  rcases Nat.eq_zero_or_pos n with h | h
  · subst h; simp
  · apply chain_le_map_range
    intro k
    apply jsRound_mono
    have hn : (0 : ℚ) < (n : ℚ) := by exact_mod_cast h
    gcongr
    linarith

lemma enum_map_originalFile (l : List JSFile) (F : ℕ × JSFile → ConversionResult)
    (hF : ∀ p, (F p).originalFile = some p.2) :
    (l.enum.map F).map (fun r => r.originalFile) = l.map some := by
  rw [List.map_map]
  have h2 : ((fun r => r.originalFile) ∘ F) = (some ∘ Prod.snd) := funext fun p => hF p
  rw [h2, ← List.map_map, List.enum_map_snd]

lemma mockConvertFiles_success (files : List JSFile) (tgt : String)
    (rand : ℕ → ℚ) (mkUrl : ℕ → String) :
    (useConversion.mockConvertFiles files tgt rand mkUrl).2.success = true := rfl

lemma mockConvertFiles_progress (files : List JSFile) (tgt : String)
    (rand : ℕ → ℚ) (mkUrl : ℕ → String) :
    (useConversion.mockConvertFiles files tgt rand mkUrl).1 =
    (List.range (20 * files.length)).map
      (fun (k : ℕ) => jsRound ((5 * ((k : ℚ) + 1)) / (files.length : ℚ))) := by
  simp only [useConversion.mockConvertFiles]
  exact hookProgress_flatten _ _

lemma convertFiles_dispatch (state : AppState) (env : HookEnv)
    (hc : (state.selectedFiles.isEmpty || state.sourceFormat.isNone
            || state.targetFormat.isNone) = false) :
    useConversion.convertFiles state env =
      ([Action.startConversion,
        Action.addNotification (env.notifId 0)
          { type := "info"
            message := "Starting conversion of " ++ toString state.selectedFiles.length
              ++ " file(s) from " ++ state.sourceFormat.getD ""
              ++ " to " ++ state.targetFormat.getD ""
            title := "Conversion Started" }]
       ++ ((useConversion.mockConvertFiles state.selectedFiles
              (state.targetFormat.getD "") env.rand env.mkUrl).1.map Action.updateProgress)
       ++ [Action.completeConversion
             (useConversion.mockConvertFiles state.selectedFiles
               (state.targetFormat.getD "") env.rand env.mkUrl).2.results,
           Action.addNotification (env.notifId 1)
             { type := "success"
               message := (useConversion.mockConvertFiles state.selectedFiles
                 (state.targetFormat.getD "") env.rand env.mkUrl).2.message
               title := "Conversion Complete!" }],
       none) := by
  simp only [useConversion.convertFiles, hc, Bool.false_eq_true, if_false,
    mockConvertFiles_success, if_true]

lemma foldl_complete_tail_progress (s : AppState) (l : List Action)
    (rs : List ConversionResult) (i : ℚ) (p : NotificationPayload) :
    ((l ++ [Action.completeConversion rs, Action.addNotification i p]).foldl appReducer s).progress
      = 100 := by
  rw [List.foldl_append]
  rfl

lemma foldl_complete_tail_results (s : AppState) (l : List Action)
    (rs : List ConversionResult) (i : ℚ) (p : NotificationPayload) :
    ((l ++ [Action.completeConversion rs, Action.addNotification i p]).foldl
        appReducer s).conversionResults = rs := by
  rw [List.foldl_append]
  rfl

lemma validation_false (state : AppState)
    (h1 : state.selectedFiles ≠ []) (h2 : state.sourceFormat.isSome = true)
    (h3 : state.targetFormat.isSome = true) :
    (state.selectedFiles.isEmpty || state.sourceFormat.isNone
      || state.targetFormat.isNone) = false := by
  have e1 : state.selectedFiles.isEmpty = false := by
    cases hsf : state.selectedFiles with
    | nil => exact absurd hsf h1
    | cons a t => rfl
  have e2 : state.sourceFormat.isNone = false := by
    cases hh : state.sourceFormat <;> simp_all
  have e3 : state.targetFormat.isNone = false := by
    cases hh : state.targetFormat <;> simp_all
  simp [e1, e2, e3]

end FileAlchemy

namespace FileAlchemy

/-- C1 counterexample: with a healthy probe and a poll trace ending in a
terminal failed status, the backend flow raises the job-failure error,
and the Smart Conversion Service nevertheless re-runs the request on the
Mock Engine (engine = mockFallback), contradicting the claim that a job
failure does not trigger the mock fallback. -/
theorem C1_counterexample :
    (ConversionApi.convertFiles [file0] benvFailed).2
        = some (Except.error (ApiError.jobFailed "bad input")) ∧
    (ApiError.jobFailed "bad input").isJobFailure = true ∧
    (SmartConversionService.convertFiles none [file0] "TXT" "PNG" senvFailed).map
        (fun r => r.2.2.1) = some Engine.mockFallback :=
  ⟨rfl, rfl, rfl⟩

/-- C1 amended: the Smart Conversion Service does not distinguish job
failures from connectivity errors: whenever the availability check
answers true and the backend flow resolves to any error e whatsoever (a
terminal failed status from polling included), the memoized availability
flips to unavailable and the very same request is re-run on the Mock
Engine, whose result is what the caller receives. -/
theorem C1_amended (memo : Option Bool) (files : List JSFile) (src tgt : String)
    (env : SmartEnv) (e : ApiError)
    (havail : (SmartConversionService.checkBackendAvailability memo env.health).1 = true)
    (herr : (ConversionApi.convertFiles files env.backend).2 = some (Except.error e)) :
    SmartConversionService.convertFiles memo files src tgt env =
      some ((ConversionApi.convertFiles files env.backend).1
              ++ (MockConversionApi.convertFiles files tgt env.rand env.mkUrl).1,
            (MockConversionApi.convertFiles files tgt env.rand env.mkUrl).2,
            Engine.mockFallback, some false) := by
  simp only [SmartConversionService.convertFiles, havail, if_true, herr]

/-- C1 amended, witness at the job-failure environment. -/
theorem C1_amended_witness :
    SmartConversionService.convertFiles none [file0] "TXT" "PNG" senvFailed =
      some ((ConversionApi.convertFiles [file0] senvFailed.backend).1
              ++ (MockConversionApi.convertFiles [file0] "PNG" senvFailed.rand senvFailed.mkUrl).1,
            (MockConversionApi.convertFiles [file0] "PNG" senvFailed.rand senvFailed.mkUrl).2,
            Engine.mockFallback, some false) :=
  C1_amended none [file0] "TXT" "PNG" senvFailed (ApiError.jobFailed "bad input") rfl rfl

/-- C2 counterexample: in a state that is already Converting (stC2 has
isConverting = true, progress 50), a second convert() call is not a
no-op: it dispatches START_CONVERSION and its run changes the conversion
state (progress and results differ afterwards). -/
theorem C2_counterexample :
    (useConversion.convertFiles stC2 henv0).1.head? = some Action.startConversion ∧
    ((useConversion.convertFiles stC2 henv0).1.foldl appReducer stC2).progress
        ≠ stC2.progress ∧
    ((useConversion.convertFiles stC2 henv0).1.foldl appReducer stC2).conversionResults
        ≠ stC2.conversionResults :=
  ⟨rfl, by decide, by decide⟩

/-- C2 amended: convert() never checks isConverting.  Whenever files and
both formats are set — regardless of isConverting — the call passes
validation, dispatches START_CONVERSION first, and runs a full second
job: afterwards progress is 100 and the results are those of the new
mock run. -/
theorem C2_amended (state : AppState) (env : HookEnv)
    (h1 : state.selectedFiles ≠ []) (h2 : state.sourceFormat.isSome = true)
    (h3 : state.targetFormat.isSome = true) :
    (useConversion.convertFiles state env).1.head? = some Action.startConversion ∧
    ((useConversion.convertFiles state env).1.foldl appReducer state).progress = 100 ∧
    ((useConversion.convertFiles state env).1.foldl appReducer state).conversionResults =
      (useConversion.mockConvertFiles state.selectedFiles (state.targetFormat.getD "")
        env.rand env.mkUrl).2.results := by
  have hc := validation_false state h1 h2 h3
  rw [convertFiles_dispatch state env hc]
  refine ⟨rfl, ?_, ?_⟩
  · exact foldl_complete_tail_progress _ _ _ _ _
  · exact foldl_complete_tail_results _ _ _ _ _

/-- C2 amended, witness at the already-converting state stC2. -/
theorem C2_amended_witness :
    (useConversion.convertFiles stC2 henv0).1.head? = some Action.startConversion ∧
    ((useConversion.convertFiles stC2 henv0).1.foldl appReducer stC2).progress = 100 ∧
    ((useConversion.convertFiles stC2 henv0).1.foldl appReducer stC2).conversionResults =
      (useConversion.mockConvertFiles stC2.selectedFiles (stC2.targetFormat.getD "")
        henv0.rand henv0.mkUrl).2.results :=
  C2_amended stC2 henv0 (by decide) rfl rfl

/-- C3 counterexample: starting from the converting state stC2, apply
RESET_CONVERSION and then replay the stale callbacks of the in-flight
attempt: the stale UPDATE_PROGRESS sets progress to 55 (not 0) and the
stale COMPLETE_CONVERSION installs the stale results (not the empty
list), so the reset does not stop the in-flight attempt from mutating
shared state. -/
theorem C3_counterexample :
    ((appReducer (appReducer stC2 Action.resetConversion)
        (Action.updateProgress 55)).progress ≠ 0) ∧
    ((appReducer (appReducer stC2 Action.resetConversion)
        (Action.completeConversion [res0])).conversionResults ≠ []) :=
  ⟨by decide, by decide⟩

/-- C3 amended: there is no generation counter or token anywhere in the
pipeline; the reducer applies UPDATE_PROGRESS and COMPLETE_CONVERSION
unconditionally, so progress and completion callbacks of an attempt
reset while in flight still mutate shared state: after a reset, a stale
progress update sets progress to its payload and a stale completion
installs its results and forces progress 100. -/
theorem C3_amended (s : AppState) (p : ℤ) (rs : List ConversionResult) :
    (appReducer (appReducer s Action.resetConversion) (Action.updateProgress p)).progress = p ∧
    (appReducer (appReducer s Action.resetConversion)
      (Action.completeConversion rs)).conversionResults = rs ∧
    (appReducer (appReducer s Action.resetConversion)
      (Action.completeConversion rs)).progress = 100 :=
  ⟨rfl, rfl, rfl⟩

/-- C4: for every state that passes validation (nonempty batch, both
formats set), the UPDATE_PROGRESS payloads dispatched during one
convert() call form a non-decreasing sequence, and the progress recorded
in the state at terminal completion is exactly 100. -/
theorem C4 (state : AppState) (env : HookEnv)
    (h1 : state.selectedFiles ≠ []) (h2 : state.sourceFormat.isSome = true)
    (h3 : state.targetFormat.isSome = true) :
    List.Chain' (· ≤ ·) ((useConversion.convertFiles state env).1.filterMap progressOf) ∧
    ((useConversion.convertFiles state env).1.foldl appReducer state).progress = 100 := by
  have hc := validation_false state h1 h2 h3
  rw [convertFiles_dispatch state env hc]
  constructor
  · simp only [List.filterMap_append, List.filterMap_cons, progressOf,
      filterMap_progressOf_map, List.filterMap_nil, List.nil_append, List.append_nil]
    rw [mockConvertFiles_progress]
    exact hook_progress_chain _
  · exact foldl_complete_tail_progress _ _ _ _ _

/-- C4 witness at the one-file state stC2. -/
theorem C4_witness :
    List.Chain' (· ≤ ·) ((useConversion.convertFiles stC2 henv0).1.filterMap progressOf) ∧
    ((useConversion.convertFiles stC2 henv0).1.foldl appReducer stC2).progress = 100 :=
  C4 stC2 henv0 (by decide) rfl rfl

/-- C5 counterexample: the mock engine result for file0 under a random
stream that makes the success draw fail has success = false and yet no
error field at all (error = none), refuting that success = false implies
the error is present. -/
theorem C5_counterexample :
    mockFailResult ∈ (MockConversionApi.convertFiles [file0] "PNG" (fun _ => 0)
        (fun _ => "blob:x")).2.results ∧
    mockFailResult.success = false ∧
    mockFailResult.error = none := by
  refine ⟨List.mem_cons_self _ _, ?_, rfl⟩
  show decide ((0 : ℚ) > 1/20) = false
  norm_num

/-- C5 amended: every result produced by either mock engine always has
convertedFileName and downloadUrl present, and never carries an error
field (error = none) — in particular the success = true half of the
claimed invariant holds, but success = false results carry no error. -/
theorem C5_amended (files : List JSFile) (tgt : String) (rand : ℕ → ℚ)
    (mkUrl : ℕ → String) (r : ConversionResult)
    (h : r ∈ (MockConversionApi.convertFiles files tgt rand mkUrl).2.results ∨
         r ∈ (useConversion.mockConvertFiles files tgt rand mkUrl).2.results) :
    r.convertedFileName.isSome = true ∧ r.downloadUrl.isSome = true ∧ r.error = none := by
  rcases h with h | h <;>
  · simp only [MockConversionApi.convertFiles, useConversion.mockConvertFiles,
      List.mem_map] at h
    obtain ⟨p, _, rfl⟩ := h
    exact ⟨rfl, rfl, rfl⟩

/-- C5 amended, witness at the successful mock result over file0. -/
theorem C5_amended_witness :
    mockOkResult.convertedFileName.isSome = true ∧
    mockOkResult.downloadUrl.isSome = true ∧ mockOkResult.error = none :=
  C5_amended [file0] "PNG" (fun _ => 1) (fun _ => "blob:x") mockOkResult
    (Or.inl (List.mem_cons_self _ _))

/-- C6: a convert() call with no files, or a missing source or target
format, fails validation before any side effect: no action is
dispatched (so folding the dispatched list leaves the state unchanged
and nothing reaches any engine or the network) and the hook-local error
is set to the validation message. -/
theorem C6 (state : AppState) (env : HookEnv)
    (h : state.selectedFiles = [] ∨ state.sourceFormat = none ∨ state.targetFormat = none) :
    useConversion.convertFiles state env =
      ([], some "Please select files and conversion formats") ∧
    ((useConversion.convertFiles state env).1.foldl appReducer state) = state := by
  have hc : (state.selectedFiles.isEmpty || state.sourceFormat.isNone
      || state.targetFormat.isNone) = true := by
    rcases h with h | h | h <;> simp [h]
  have he : useConversion.convertFiles state env =
      ([], some "Please select files and conversion formats") := by
    simp only [useConversion.convertFiles, hc, if_true]
  exact ⟨he, by rw [he]; rfl⟩

/-- C6 witness at the initial (empty) state. -/
theorem C6_witness :
    useConversion.convertFiles initialState henv0 =
      ([], some "Please select files and conversion formats") ∧
    ((useConversion.convertFiles initialState henv0).1.foldl appReducer initialState)
      = initialState :=
  C6 initialState henv0 (Or.inl rfl)

/-- C7: the Smart Conversion Service memoizes availability.  First, when
the availability check answers true and the backend flow resolves to a
connectivity-class error (not a job failure), the memo flips to
unavailable and the same request is retried on the Mock Engine exactly
once, producing the mock result.  Second, whenever the memo is already
unavailable, the call goes straight to the Mock Engine — the outcome is
independent of the health probe outcome, so no re-probing occurs. -/
theorem C7 :
    (∀ (memo : Option Bool) (files : List JSFile) (src tgt : String) (env : SmartEnv)
        (e : ApiError),
      (SmartConversionService.checkBackendAvailability memo env.health).1 = true →
      (ConversionApi.convertFiles files env.backend).2 = some (Except.error e) →
      e.isJobFailure = false →
      SmartConversionService.convertFiles memo files src tgt env =
        some ((ConversionApi.convertFiles files env.backend).1
                ++ (MockConversionApi.convertFiles files tgt env.rand env.mkUrl).1,
              (MockConversionApi.convertFiles files tgt env.rand env.mkUrl).2,
              Engine.mockFallback, some false))
  ∧ (∀ (files : List JSFile) (src tgt : String) (env : SmartEnv),
      SmartConversionService.convertFiles (some false) files src tgt env =
        some ((MockConversionApi.convertFiles files tgt env.rand env.mkUrl).1,
              (MockConversionApi.convertFiles files tgt env.rand env.mkUrl).2,
              Engine.mockDirect, some false)) := by
  constructor
  · intro memo files src tgt env e havail herr _hjf
    simp only [SmartConversionService.convertFiles, havail, if_true, herr]
  · intro files src tgt env
    simp [SmartConversionService.convertFiles, SmartConversionService.checkBackendAvailability]

/-- C7 witness: the network-failing upload environment trips the
fallback, and a memoized-unavailable call goes straight to the mock. -/
theorem C7_witness :
    (SmartConversionService.convertFiles none [file0] "TXT" "PNG" senvNet =
      some ((ConversionApi.convertFiles [file0] senvNet.backend).1
              ++ (MockConversionApi.convertFiles [file0] "PNG" senvNet.rand senvNet.mkUrl).1,
            (MockConversionApi.convertFiles [file0] "PNG" senvNet.rand senvNet.mkUrl).2,
            Engine.mockFallback, some false)) ∧
    (SmartConversionService.convertFiles (some false) [file0] "TXT" "PNG" senvNet =
      some ((MockConversionApi.convertFiles [file0] "PNG" senvNet.rand senvNet.mkUrl).1,
            (MockConversionApi.convertFiles [file0] "PNG" senvNet.rand senvNet.mkUrl).2,
            Engine.mockDirect, some false)) :=
  ⟨C7.1 none [file0] "TXT" "PNG" senvNet ApiError.uploadNetwork rfl rfl rfl,
   C7.2 [file0] "TXT" "PNG" senvNet⟩

/-- C8: for every batch, both mock engines return exactly one result per
input file, and the result at every position references the input file
at that same position (the originalFile column equals the input batch). -/
theorem C8 (files : List JSFile) (tgt : String) (rand : ℕ → ℚ) (mkUrl : ℕ → String) :
    ((MockConversionApi.convertFiles files tgt rand mkUrl).2.results.length = files.length ∧
     (MockConversionApi.convertFiles files tgt rand mkUrl).2.results.map
        (fun r => r.originalFile) = files.map some) ∧
    ((useConversion.mockConvertFiles files tgt rand mkUrl).2.results.length = files.length ∧
     (useConversion.mockConvertFiles files tgt rand mkUrl).2.results.map
        (fun r => r.originalFile) = files.map some) := by
  refine ⟨⟨?_, ?_⟩, ?_, ?_⟩
  · simp [MockConversionApi.convertFiles, List.enum_length]
  · simp only [MockConversionApi.convertFiles]
    exact enum_map_originalFile _ _ (fun p => rfl)
  · simp [useConversion.mockConvertFiles, List.enum_length]
  · simp only [useConversion.mockConvertFiles]
    exact enum_map_originalFile _ _ (fun p => rfl)

/-- C9 counterexample: create a one-image batch (handle 0), replace it
via setFiles with another one-image batch (handle 1), then reset: two
handles were created (nextId = 2) but only handle 1 is ever released, so
the number of release calls does not equal the number created. -/
theorem C9_counterexample :
    (useConversion.resetConversion
      (useConversion.setFiles
        (useConversion.setFiles { state := initialState, nextId := 0, released := [] }
          [imgA]) [imgB])).nextId = 2 ∧
    (useConversion.resetConversion
      (useConversion.setFiles
        (useConversion.setFiles { state := initialState, nextId := 0, released := [] }
          [imgA]) [imgB])).released = [1] :=
  ⟨by decide, by decide⟩

/-- C9 amended: resetConversion releases exactly the handles currently
held in previewUrls (appending them, in order, to the released log) and
clears selection, formats, files, previews, progress and results,
returning the machine to Idle; handles of batches previously replaced by
setFiles are not in previewUrls any more and hence are not released. -/
theorem C9_amended (s : Session) :
    (useConversion.resetConversion s).released
        = s.released ++ s.state.previewUrls.filterMap id ∧
    (useConversion.resetConversion s).nextId = s.nextId ∧
    (useConversion.resetConversion s).state.selectedCategory = none ∧
    (useConversion.resetConversion s).state.sourceFormat = none ∧
    (useConversion.resetConversion s).state.targetFormat = none ∧
    (useConversion.resetConversion s).state.selectedFiles = [] ∧
    (useConversion.resetConversion s).state.previewUrls = [] ∧
    (useConversion.resetConversion s).state.isConverting = false ∧
    (useConversion.resetConversion s).state.progress = 0 ∧
    (useConversion.resetConversion s).state.conversionResults = [] :=
  ⟨rfl, rfl, rfl, rfl, rfl, rfl, rfl, rfl, rfl, rfl⟩

/-- C10: whenever an engine returns rather than throws, the top-level
success field is the literal true — for both mock engines on every
input, and for every resolving backend run — and consequently the hook
branch for a returned result with success = false is unreachable: no
run of convert() ever dispatches the Conversion Failed error
notification. -/
theorem C10 :
    (∀ (files : List JSFile) (tgt : String) (rand : ℕ → ℚ) (mkUrl : ℕ → String),
      (MockConversionApi.convertFiles files tgt rand mkUrl).2.success = true)
  ∧ (∀ (files : List JSFile) (tgt : String) (rand : ℕ → ℚ) (mkUrl : ℕ → String),
      (useConversion.mockConvertFiles files tgt rand mkUrl).2.success = true)
  ∧ (∀ (files : List JSFile) (env : BackendEnv) (r : BatchResult),
      (ConversionApi.convertFiles files env).2 = some (Except.ok r) → r.success = true)
  ∧ (∀ (state : AppState) (env : HookEnv) (i : ℚ) (payload : NotificationPayload),
      Action.addNotification i payload ∈ (useConversion.convertFiles state env).1 →
      payload.title ≠ "Conversion Failed") := by
  refine ⟨fun _ _ _ _ => rfl, fun _ _ _ _ => rfl, ?_, ?_⟩
  · intro files env r h
    simp only [ConversionApi.convertFiles] at h
    cases hu : ConversionApi.startConversion env.upload with
    | error e => rw [hu] at h; simp at h
    | ok jid =>
      rw [hu] at h
      cases hp : (ConversionApi.pollConversionStatus env.polls).2 with
      | none => rw [hp] at h; simp at h
      | some exc =>
        cases exc with
        | error e => rw [hp] at h; simp at h
        | ok d =>
          rw [hp] at h
          simp only [Option.some.injEq, Except.ok.injEq] at h
          rw [← h]
  · intro state env i payload hmem
    cases hcond : (state.selectedFiles.isEmpty || state.sourceFormat.isNone
        || state.targetFormat.isNone) with
    | true =>
      simp only [useConversion.convertFiles, hcond, if_true] at hmem
      simp at hmem
    | false =>
      rw [convertFiles_dispatch state env hcond] at hmem
      rcases List.mem_append.mp hmem with h12 | h3
      · rcases List.mem_append.mp h12 with h1 | h2
        · simp only [List.mem_cons, List.not_mem_nil, or_false] at h1
          rcases h1 with h | h
          · exact absurd h (by simp)
          · cases h
            intro hfalse
            exact absurd
              (show ("Conversion Started" : String) = "Conversion Failed" from hfalse)
              (by decide)
        · rcases List.mem_map.mp h2 with ⟨z, _, hz⟩
          exact absurd hz (by simp)
      · simp only [List.mem_cons, List.not_mem_nil, or_false] at h3
        rcases h3 with h | h
        · exact absurd h (by simp)
        · cases h
          intro hfalse
          exact absurd
            (show ("Conversion Complete!" : String) = "Conversion Failed" from hfalse)
            (by decide)

/-- C10 witness: the completed backend run resolves with success = true,
and the info notification dispatched by a convert() run is not the
Conversion Failed notification. -/
theorem C10_witness :
    batchDone.success = true ∧
    startPayloadC2.title ≠ "Conversion Failed" :=
  ⟨C10.2.2.1 [file0] benvDone batchDone rfl,
   C10.2.2.2 stC2 henv0 (henv0.notifId 0) startPayloadC2 (by decide)⟩

end FileAlchemy
